import Mathlib

/-! Verification development for the sb3-js runtime orchestration core.

The definitions below are a shallow embedding of `src/runtime.ts` and
`src/util/any-abort-signal.ts`: the project lifecycle state machine, the
fixed-timestep stepping loop, the monitor-view subsystem, the keyboard
input translation layer, the pointer-coordinate mapping, and the
abort-signal combinator.  Calls to external collaborators (script
interpreter, renderer, DOM views, timers) are recorded in an explicit
event trace, in program order; the mutable fields of the `Runtime` class
become fields of an explicit `RuntimeState` record. -/

/-- Observable external effects performed by the runtime, recorded in
program order. -/
inductive REvent where
  | timerSet
  | timerCleared
  | stepThreads
  | launchMonitorUpdate (mid : Nat)
  | draw
  | penClear
  | unregisterProject (pid : Nat)
  | interpSetProject (pid : Option Nat)
  | subscribeCreateMonitor (pid : Nat) (cid : Nat)
  | addUpdateListener (mid : Nat) (cid : Nat)
  | abortScope (cid : Nat)
  | registerProject (pid : Nat)
  | createView (mid : Nat) (vid : Nat)
  | addSliderListener (vid : Nat)
  | removeView (vid : Nat)
  | abortViewScope (vid : Nat)
  | viewUpdate (vid : Nat)
  | viewLayout (vid : Nat)
  | assignPosition (mid : Nat)
  | setColor (vid : Nat)
  | preventDefault
  | startHats (key : String)
  deriving DecidableEq, Repr

/-- A monitor, as observed by the runtime when a notification is handled:
its identity, current `visible` flag, optional owning target, optional
recorded screen position and optional block color category. -/
structure Monitor where
  id : Nat
  visible : Bool
  target : Option Nat
  position : Option (Int × Int)
  colorCategory : Option String
  deriving DecidableEq, Repr

/-- A project: identity, its monitor collection (each entry of
`project.monitors` pairs a monitor with its update block; the block is
identified by the monitor id in the trace) and its optional stage
target. -/
structure Project where
  id : Nat
  monitors : List Monitor
  stage : Option Nat
  deriving DecidableEq, Repr

/-- The data captured by the `unregisterPreviousProject` closure in
`setProject`: the bound project and the abort controller created for its
monitor event listeners. -/
structure Teardown where
  proj : Project
  controllerId : Nat
  deriving DecidableEq, Repr

/-- The mutable fields of the `Runtime` class, plus explicit listener
bookkeeping: `monitorViews` maps monitor id to view id (the JS `Map`),
`sliderListeners` tracks live slider listeners by view id,
`updateListeners` tracks live `updatemonitor` listeners as
(monitor id, controller id), `createMonitorSubs` tracks live
`createmonitor` subscriptions as (project id, controller id). -/
structure RuntimeState where
  project : Option Project
  stage : Bool
  renderer : Bool
  running : Bool
  pendingTeardown : Option Teardown
  monitorViews : List (Nat × Nat)
  sliderListeners : List Nat
  updateListeners : List (Nat × Nat)
  createMonitorSubs : List (Nat × Nat)
  nextViewId : Nat
  nextControllerId : Nat
  keysDown : List String
  mouseDown : Bool
  deriving DecidableEq, Repr

/-- The state of a freshly constructed `Runtime`. -/
def initialRuntime : RuntimeState :=
  { project := none, stage := false, renderer := false, running := false,
    pendingTeardown := none, monitorViews := [], sliderListeners := [],
    updateListeners := [], createMonitorSubs := [], nextViewId := 0,
    nextControllerId := 0, keysDown := [], mouseDown := false }

namespace Runtime

/-- Lookup in the `monitorViews` map (JS `Map.get`). -/
def mvFind (l : List (Nat × Nat)) (k : Nat) : Option Nat :=
  (l.find? (fun e => e.1 == k)).map (fun e => e.2)

/-- The `stop` method: clear the stepping interval if one is set. -/
def stop (s : RuntimeState) : RuntimeState × List REvent :=
  if s.running then ({ s with running := false }, [REvent.timerCleared])
  else (s, [])

/-- The `stepMonitors` method: silently return when no project is bound,
throw when the project has no stage, otherwise launch every visible
monitor's update block. -/
def stepMonitors (s : RuntimeState) : Except String (RuntimeState × List REvent) :=
  match s.project with
  | none => .ok (s, [])
  | some proj =>
    match proj.stage with
    | none => .error ("Project has no stage")
    | some _ =>
      .ok (s, proj.monitors.filterMap (fun m =>
        if m.visible then some (REvent.launchMonitorUpdate m.id) else none))

/-- The `step` method (one tick): throw without a project, then step
threads, then step monitors, then draw if a renderer is attached. -/
def step (s : RuntimeState) : Except String (RuntimeState × List REvent) :=
  match s.project with
  | none => .error ("Cannot step without a project")
  | some _ =>
    match stepMonitors s with
    | .error e => .error e
    | .ok (s1, e2) =>
      .ok (s1, [REvent.stepThreads] ++ e2
            ++ (if s1.renderer then [REvent.draw] else []))

/-- The `start` method: no-op when already running, otherwise set the
interval and step once immediately. -/
def start (s : RuntimeState) : Except String (RuntimeState × List REvent) :=
  if s.running then .ok (s, [])
  else
    let s1 := { s with running := true }
    match step s1 with
    | .error e => .error e
    | .ok (s2, e2) => .ok (s2, REvent.timerSet :: e2)

/-- The `removeMonitorView` method: if the monitor has a view, remove the
view, abort its listener scope (detaching its slider listener) and drop
it from the tracking map. -/
def removeMonitorView (s : RuntimeState) (mid : Nat) : RuntimeState × List REvent :=
  match mvFind s.monitorViews mid with
  | some vid =>
    ({ s with monitorViews := s.monitorViews.filter (fun e => !(e.1 == mid)),
              sliderListeners := s.sliderListeners.erase vid },
     [REvent.removeView vid, REvent.abortViewScope vid])
  | none => (s, [])

/-- The loop in the teardown closure: `removeMonitorView` for each
monitor of the captured project. -/
def removeViews : RuntimeState → List Monitor → RuntimeState × List REvent
  | s, [] => (s, [])
  | s, m :: ms =>
    let p1 := removeMonitorView s m.id
    let p2 := removeViews p1.1 ms
    (p2.1, p1.2 ++ p2.2)

/-- Aborting a project scope controller detaches every listener that was
registered with its signal. -/
def abortEventScope (s : RuntimeState) (cid : Nat) : RuntimeState :=
  { s with updateListeners := s.updateListeners.filter (fun e => !(e.2 == cid)),
           createMonitorSubs := s.createMonitorSubs.filter (fun e => !(e.2 == cid)) }

/-- The `unregisterPreviousProject` closure body: null the project, stop
the loop, remove every captured monitor's view, clear the pen layer (it
exists when a renderer is attached), unregister the project, abort the
project's event scope, and unset the interpreter's project. -/
def runTeardown (s : RuntimeState) (td : Teardown) : RuntimeState × List REvent :=
  let s1 : RuntimeState := { s with project := none }
  let p1 := stop s1
  let p2 := removeViews p1.1 td.proj.monitors
  let penEvents := if p2.1.renderer then [REvent.penClear] else []
  let s4 := abortEventScope p2.1 td.controllerId
  (s4, p1.2 ++ p2.2 ++ penEvents
        ++ [REvent.unregisterProject td.proj.id,
            REvent.abortScope td.controllerId,
            REvent.interpSetProject none])

/-- The `handleMonitorCreated` method: requires an attached stage; then
registers an `updatemonitor` listener scoped to the project
controller. -/
def handleMonitorCreated (s : RuntimeState) (cid : Nat) (mid : Nat) :
    RuntimeState × List REvent :=
  if !s.stage then (s, [])
  else ({ s with updateListeners := (mid, cid) :: s.updateListeners },
        [REvent.addUpdateListener mid cid])

/-- The replay loop in `setProject`: `handleMonitorCreated` for every
monitor already present in the project's monitor collection. -/
def replayCreated (cid : Nat) : RuntimeState → List Monitor → RuntimeState × List REvent
  | s, [] => (s, [])
  | s, m :: ms =>
    let p1 := handleMonitorCreated s cid m.id
    let p2 := replayCreated cid p1.1 ms
    (p2.1, p1.2 ++ p2.2)

/-- The opening block of `setProject`: if a teardown callback is
pending, run it and clear the pending slot. -/
def teardownPhase (s : RuntimeState) : RuntimeState × List REvent :=
  match s.pendingTeardown with
  | some td =>
    let p0 := runTeardown s td
    (({ p0.1 with pendingTeardown := none } : RuntimeState), p0.2)
  | none => (s, ([] : List REvent))

/-- The `setProject` method: run any pending teardown first, bind the new
project (possibly null); for a non-null project, set the interpreter's
project, subscribe to monitor creation with a fresh controller, replay
created handling for pre-existing monitors, register the project and
record the new teardown closure. -/
def setProject (s : RuntimeState) (p : Option Project) : RuntimeState × List REvent :=
  let q := teardownPhase s
  let s2 := { q.1 with project := p }
  match p with
  | none => (s2, q.2)
  | some proj =>
    let cid := s2.nextControllerId
    let s3 := { s2 with nextControllerId := cid + 1,
                        createMonitorSubs := (proj.id, cid) :: s2.createMonitorSubs }
    let pr := replayCreated cid s3 proj.monitors
    (({ pr.1 with pendingTeardown := some (Teardown.mk proj cid) } : RuntimeState),
     q.2 ++ [REvent.interpSetProject (some proj.id),
             REvent.subscribeCreateMonitor proj.id cid]
          ++ pr.2 ++ [REvent.registerProject proj.id])

/-- Apply a sequence of `setProject` calls, discarding traces. -/
def applyCalls (s : RuntimeState) (calls : List (Option Project)) : RuntimeState :=
  calls.foldl (fun st p => (setProject st p).1) s

/-- The `handleMonitorUpdated` method: bail out when no project is set or
no stage is attached; remove the view of an invisible monitor; otherwise
fetch or lazily create the view (wiring its slider listener), update it,
run the two-pass measure-then-place layout when the monitor has no
position yet, and set the theme colors when a color category exists. -/
def handleMonitorUpdated (s : RuntimeState) (m : Monitor) : RuntimeState × List REvent :=
  if s.project.isNone || !s.stage then (s, [])
  else if !m.visible then removeMonitorView s m.id
  else
    let tailEvents := fun (vid : Nat) =>
      [REvent.viewUpdate vid]
      ++ (if m.position.isNone then
            [REvent.viewLayout vid, REvent.assignPosition m.id, REvent.viewUpdate vid]
          else [])
      ++ (if m.colorCategory.isSome then [REvent.setColor vid] else [])
    match mvFind s.monitorViews m.id with
    | some vid => (s, tailEvents vid)
    | none =>
      let vid := s.nextViewId
      ({ s with nextViewId := vid + 1,
                monitorViews := (m.id, vid) :: s.monitorViews,
                sliderListeners := vid :: s.sliderListeners },
       [REvent.createView m.id vid, REvent.addSliderListener vid] ++ tailEvents vid)

/-- The `keydown` listener: translate the native key; ignore unrecognized
keys entirely; for a recognized key suppress the default, add it to the
keys-held set and start `keypressed` hats. -/
def keydown (translate : String → Option String) (s : RuntimeState) (k : String) :
    RuntimeState × List REvent :=
  match translate k with
  | none => (s, [])
  | some key =>
    ({ s with keysDown := if key ∈ s.keysDown then s.keysDown else key :: s.keysDown },
     [REvent.preventDefault, REvent.startHats key])

/-- The `keyup` listener: translate the native key; ignore unrecognized
keys; for a recognized key delete it from the keys-held set. -/
def keyup (translate : String → Option String) (s : RuntimeState) (k : String) :
    RuntimeState × List REvent :=
  match translate k with
  | none => (s, [])
  | some key => ({ s with keysDown := s.keysDown.erase key }, [])

end Runtime

/-! The abort-signal combinator (`src/util/any-abort-signal.ts`).  Input
signals are `Option Bool` at combination time (`none` for a null or
undefined slot, otherwise the `aborted` flag).  Each input is tracked as
its nullness, its current `aborted` flag, and whether the combinator's
`onAbort` listener is currently attached to it.  The derived controller
is tracked as its `aborted` flag plus a count of how many times its
signal has actually fired (an `abort()` call on an already-aborted
controller does not fire again). -/

/-- One input slot of the combinator. -/
structure SigInput where
  isNull : Bool
  aborted : Bool
  listener : Bool
  deriving DecidableEq, Repr

/-- The combinator's state: the derived controller plus the tracked
input slots. -/
structure CombState where
  ctrlAborted : Bool
  fireCount : Nat
  inputs : List SigInput
  deriving DecidableEq, Repr

/-- An input slot as seen at combination time. -/
def initInput (sig : Option Bool) : SigInput :=
  { isNull := sig.isNone, aborted := sig.getD false, listener := false }

/-- The `onAbort` closure: abort the derived controller (which fires its
signal only if it was not yet aborted) and detach the listener from
every input. -/
def onAbort (st : CombState) : CombState :=
  { ctrlAborted := true,
    fireCount := st.fireCount + (if st.ctrlAborted then 0 else 1),
    inputs := st.inputs.map (fun inp => { inp with listener := false }) }

/-- The registration loop of `anyAbortSignal`: walk the inputs in order;
on the first already-aborted input run `onAbort` and break (later inputs
never receive a listener); otherwise attach the listener to each
non-null input. -/
def anyAbortLoop : List SigInput → List (Option Bool) → CombState
  | acc, [] => { ctrlAborted := false, fireCount := 0, inputs := acc.reverse }
  | acc, sig :: rest =>
    let inp := initInput sig
    if !inp.isNull && inp.aborted then
      onAbort { ctrlAborted := false, fireCount := 0,
                inputs := acc.reverse ++ inp :: rest.map initInput }
    else
      anyAbortLoop ({ inp with listener := !inp.isNull } :: acc) rest

/-- The `anyAbortSignal` function applied to a list of input signals. -/
def anyAbortSignal (sigs : List (Option Bool)) : CombState :=
  anyAbortLoop [] sigs

/-- An input signal fires after combination: a no-op for an absent, null
or already-aborted slot; otherwise the slot becomes aborted and, if the
combinator's listener is attached there, `onAbort` runs. -/
def fireInput (st : CombState) (i : Nat) : CombState :=
  match st.inputs.get? i with
  | none => st
  | some inp =>
    if inp.isNull || inp.aborted then st
    else
      let st1 := { st with inputs := st.inputs.set i { inp with aborted := true } }
      if inp.listener then onAbort st1 else st1

/-- Fire a sequence of input signals in order. -/
def runFires (st : CombState) (l : List Nat) : CombState :=
  l.foldl fireInput st

/-! The pointer-coordinate mapping (`stageCoordsFromPointerEvent` in
`setupEventListeners`).  JS numbers are modelled as rationals and
`Math.round` as floor of x + 1/2 (JS rounds half toward positive
infinity). -/

/-- A stage-bounds rectangle.  Modelled from the spec: `rectangle.ts` is
not under `src/`; the stage bounds are the rectangle with the given
left/right/bottom/top edges, whose width is right minus left and whose
height is top minus bottom. -/
structure Rectangle where
  left : ℚ
  right : ℚ
  bottom : ℚ
  top : ℚ
  deriving DecidableEq, Repr

/-- Modelled from the spec: `Rectangle.fromBounds(left, right, bottom,
top)`. -/
def Rectangle.fromBounds (l r b t : ℚ) : Rectangle :=
  { left := l, right := r, bottom := b, top := t }

/-- Width of a rectangle. -/
def Rectangle.width (rect : Rectangle) : ℚ := rect.right - rect.left

/-- Height of a rectangle. -/
def Rectangle.height (rect : Rectangle) : ℚ := rect.top - rect.bottom

/-- The runtime's configured stage bounds. -/
def stageBounds : Rectangle := Rectangle.fromBounds (-240) 240 (-180) 180

/-- The client position carried by a pointer event. -/
structure PointerEventData where
  clientX : ℚ
  clientY : ℚ
  deriving DecidableEq, Repr

/-- The surface's bounding client rectangle. -/
structure DOMRect where
  left : ℚ
  top : ℚ
  width : ℚ
  height : ℚ
  deriving DecidableEq, Repr

/-- JS `Math.round`: round half toward positive infinity. -/
def jsRound (q : ℚ) : ℤ := ⌊q + 1 / 2⌋

/-- The `stageCoordsFromPointerEvent` closure: scale the surface-local
client offset by logical size over rendered size, round and translate,
clamp into the stage bounds, and negate y. -/
def stageCoordsFromPointerEvent (event : PointerEventData) (rect : DOMRect) : ℚ × ℚ :=
  let x : ℚ := (event.clientX - rect.left) * (stageBounds.width / rect.width)
  let y : ℚ := (event.clientY - rect.top) * (stageBounds.height / rect.height)
  let xc : ℚ := max stageBounds.left
    (min stageBounds.right ((jsRound (x + stageBounds.left) : ℤ) : ℚ))
  let yc : ℚ := max stageBounds.bottom
    (min stageBounds.top ((jsRound (y + stageBounds.bottom) : ℤ) : ℚ))
  (xc, -yc)

/-! Theorems.  Each claim of the specification is settled by one theorem
below; shared helper lemmas come first. -/

/-- Every event produced by the monitor-stepping loop is a monitor
update launch. -/
theorem mem_monitorLaunches {ms : List Monitor} {e : REvent}
    (he : e ∈ ms.filterMap (fun m =>
      if m.visible then some (REvent.launchMonitorUpdate m.id) else none)) :
    ∃ mid, e = REvent.launchMonitorUpdate mid := by
  rcases List.mem_filterMap.mp he with ⟨m, _, hm⟩
  by_cases hv : m.visible
  · simp [hv] at hm
    exact ⟨m.id, hm.symm⟩
  · simp [hv] at hm

/-- C7: ticking while no project is bound throws, and stepping monitors
while the bound project has no stage target throws; neither silently
skips the work. -/
theorem step_throws_without_project_and_stepMonitors_throws_without_stage :
    (∀ s : RuntimeState, s.project = none →
      Runtime.step s = .error ("Cannot step without a project")) ∧
    (∀ (s : RuntimeState) (proj : Project), s.project = some proj →
      proj.stage = none →
      Runtime.stepMonitors s = .error ("Project has no stage")) := by
  constructor
  · intro s h
    simp [Runtime.step, h]
  · intro s proj h hs
    simp [Runtime.stepMonitors, h, hs]

/-- Witness for C7 at concrete states. -/
theorem step_throws_witness :
    Runtime.step initialRuntime = .error ("Cannot step without a project") ∧
    Runtime.stepMonitors
      { initialRuntime with project := some (Project.mk 1 [] none) } =
      .error ("Project has no stage") := by
  refine ⟨?_, ?_⟩
  · exact step_throws_without_project_and_stepMonitors_throws_without_stage.1
      initialRuntime rfl
  · exact step_throws_without_project_and_stepMonitors_throws_without_stage.2
      _ (Project.mk 1 [] none) rfl rfl

/-- C10: handling a monitor update notification with no project set or
no display surface attached changes no state and performs no external
effect; in particular the view of a monitor that has become invisible is
not removed and its listener scope is not cancelled. -/
theorem handleMonitorUpdated_noop_without_surface (s : RuntimeState) (m : Monitor)
    (h : s.project = none ∨ s.stage = false) :
    Runtime.handleMonitorUpdated s m = (s, []) := by
  unfold Runtime.handleMonitorUpdated
  rcases h with h | h <;> simp [h]

/-- Witness for C10: no surface attached, the monitor is invisible and
still has a tracked view and slider listener, yet nothing is removed. -/
theorem handleMonitorUpdated_noop_witness :
    Runtime.handleMonitorUpdated
      { initialRuntime with
          project := some (Project.mk 1 [Monitor.mk 7 false none none none] (some 0)),
          monitorViews := [(7, 0)], sliderListeners := [0] }
      (Monitor.mk 7 false none none none) =
    ({ initialRuntime with
         project := some (Project.mk 1 [Monitor.mk 7 false none none none] (some 0)),
         monitorViews := [(7, 0)], sliderListeners := [0] }, []) :=
  handleMonitorUpdated_noop_without_surface _ _ (Or.inr rfl)

/-- C2: within one tick, thread stepping comes first, then the monitor
update launches, then the draw call (present exactly when a renderer is
attached); the trace is literally the concatenation of the three
phases. -/
theorem step_orders_threads_monitors_draw (s : RuntimeState) (proj : Project)
    (t : Nat) (hp : s.project = some proj) (hs : proj.stage = some t) :
    ∃ launches : List REvent,
      Runtime.step s = .ok (s, [REvent.stepThreads] ++ launches
        ++ (if s.renderer then [REvent.draw] else [])) ∧
      ∀ e ∈ launches, ∃ mid, e = REvent.launchMonitorUpdate mid := by
  refine ⟨proj.monitors.filterMap (fun m =>
    if m.visible then some (REvent.launchMonitorUpdate m.id) else none), ?_, ?_⟩
  · simp [Runtime.step, Runtime.stepMonitors, hp, hs]
  · intro e he
    exact mem_monitorLaunches he

/-- Witness for C2 at a concrete state with one visible and one
invisible monitor and an attached renderer. -/
theorem step_orders_witness :
    ∃ launches : List REvent,
      Runtime.step { initialRuntime with
        project := some (Project.mk 1
          [Monitor.mk 7 true none none none, Monitor.mk 8 false none none none]
          (some 0)),
        renderer := true } =
      .ok ({ initialRuntime with
        project := some (Project.mk 1
          [Monitor.mk 7 true none none none, Monitor.mk 8 false none none none]
          (some 0)),
        renderer := true }, [REvent.stepThreads] ++ launches
          ++ (if ({ initialRuntime with
                project := some (Project.mk 1
                  [Monitor.mk 7 true none none none,
                   Monitor.mk 8 false none none none] (some 0)),
                renderer := true } : RuntimeState).renderer
              then [REvent.draw] else [])) ∧
      ∀ e ∈ launches, ∃ mid, e = REvent.launchMonitorUpdate mid :=
  step_orders_threads_monitors_draw _ (Project.mk 1
    [Monitor.mk 7 true none none none, Monitor.mk 8 false none none none]
    (some 0)) 0 rfl rfl

/-- C3: for every pointer event the computed project coordinate lies in
the stage bounds inclusive, and the corner scenario maps client (0,0) on
a 480 by 360 surface at origin to exactly (-240, 180). -/
theorem pointer_coords_clamped_and_corner :
    (∀ (event : PointerEventData) (rect : DOMRect),
      0 < rect.width → 0 < rect.height →
      -240 ≤ (stageCoordsFromPointerEvent event rect).1 ∧
      (stageCoordsFromPointerEvent event rect).1 ≤ 240 ∧
      -180 ≤ (stageCoordsFromPointerEvent event rect).2 ∧
      (stageCoordsFromPointerEvent event rect).2 ≤ 180) ∧
    stageCoordsFromPointerEvent (PointerEventData.mk 0 0)
      (DOMRect.mk 0 0 480 360) = (-240, 180) := by
  constructor
  · intro event rect _ _
    simp only [stageCoordsFromPointerEvent, stageBounds, Rectangle.fromBounds]
    refine ⟨le_max_left _ _, max_le (by norm_num) (min_le_left _ _), ?_, ?_⟩
    · have h : max (-180 : ℚ)
          (min 180 ((jsRound ((event.clientY - rect.top) *
            (Rectangle.height (Rectangle.mk (-240) 240 (-180) 180) / rect.height) +
            (-180)) : ℤ) : ℚ)) ≤ 180 :=
        max_le (by norm_num) (min_le_left _ _)
      exact neg_le_neg h
    · have h : (-180 : ℚ) ≤ max (-180)
          (min 180 ((jsRound ((event.clientY - rect.top) *
            (Rectangle.height (Rectangle.mk (-240) 240 (-180) 180) / rect.height) +
            (-180)) : ℤ) : ℚ)) :=
        le_max_left _ _
      simpa using neg_le_neg h
  · have h240 : jsRound (-240 : ℚ) = -240 := by
      rw [jsRound, Int.floor_eq_iff]
      constructor <;> norm_num
    have h180 : jsRound (-180 : ℚ) = -180 := by
      rw [jsRound, Int.floor_eq_iff]
      constructor <;> norm_num
    simp only [stageCoordsFromPointerEvent, stageBounds, Rectangle.fromBounds,
      Rectangle.width, Rectangle.height]
    norm_num [h240, h180]

/-- Witness for C3: apply the general clamping bound at a pointer event
far outside the surface rectangle. -/
theorem pointer_coords_clamped_witness :
    -240 ≤ (stageCoordsFromPointerEvent (PointerEventData.mk 100000 (-99999))
      (DOMRect.mk 10 20 480 360)).1 ∧
    (stageCoordsFromPointerEvent (PointerEventData.mk 100000 (-99999))
      (DOMRect.mk 10 20 480 360)).1 ≤ 240 :=
  ⟨(pointer_coords_clamped_and_corner.1 _ _ (by norm_num) (by norm_num)).1,
   (pointer_coords_clamped_and_corner.1 _ _ (by norm_num) (by norm_num)).2.1⟩

/-- C6: starting while already running is a no-op; starting from the
stopped state sets the timer once and ticks exactly once immediately;
stopping while not running is a no-op. -/
theorem start_twice_one_timer_one_tick (s : RuntimeState) (proj : Project)
    (t : Nat) (hp : s.project = some proj) (hs : proj.stage = some t)
    (hr : s.running = false) :
    ∃ (s1 : RuntimeState) (e1 : List REvent),
      Runtime.start s = .ok (s1, e1) ∧
      s1.running = true ∧
      e1.count REvent.timerSet = 1 ∧
      e1.count REvent.stepThreads = 1 ∧
      Runtime.start s1 = .ok (s1, []) ∧
      (∀ s2 : RuntimeState, s2.running = false → Runtime.stop s2 = (s2, [])) := by
  have hlaunch : ∀ e ∈ proj.monitors.filterMap (fun m =>
      if m.visible then some (REvent.launchMonitorUpdate m.id) else none),
      ∃ mid, e = REvent.launchMonitorUpdate mid := fun _ he => mem_monitorLaunches he
  refine ⟨{ s with running := true },
    REvent.timerSet :: ([REvent.stepThreads]
      ++ proj.monitors.filterMap (fun m =>
        if m.visible then some (REvent.launchMonitorUpdate m.id) else none)
      ++ (if s.renderer then [REvent.draw] else [])), ?_, rfl, ?_, ?_, ?_, ?_⟩
  · simp [Runtime.start, Runtime.step, Runtime.stepMonitors, hp, hs, hr]
  · have hz : (proj.monitors.filterMap (fun m =>
        if m.visible then some (REvent.launchMonitorUpdate m.id) else none)).count
        REvent.timerSet = 0 := by
      refine List.count_eq_zero.mpr (fun hmem => ?_)
      rcases hlaunch _ hmem with ⟨mid, hmid⟩
      cases hmid
    by_cases hren : s.renderer <;>
      simp [List.count_cons, List.count_append, hz, hren]
  · have hz : (proj.monitors.filterMap (fun m =>
        if m.visible then some (REvent.launchMonitorUpdate m.id) else none)).count
        REvent.stepThreads = 0 := by
      refine List.count_eq_zero.mpr (fun hmem => ?_)
      rcases hlaunch _ hmem with ⟨mid, hmid⟩
      cases hmid
    by_cases hren : s.renderer <;>
      simp [List.count_cons, List.count_append, hz, hren]
  · simp [Runtime.start]
  · intro s2 h2
    simp [Runtime.stop, h2]

/-- Witness for C6 at a concrete stopped state with a bound project. -/
theorem start_twice_witness :
    ∃ (s1 : RuntimeState) (e1 : List REvent),
      Runtime.start { initialRuntime with
        project := some (Project.mk 1 [] (some 0)) } = .ok (s1, e1) ∧
      s1.running = true ∧
      e1.count REvent.timerSet = 1 ∧
      e1.count REvent.stepThreads = 1 ∧
      Runtime.start s1 = .ok (s1, []) ∧
      (∀ s2 : RuntimeState, s2.running = false → Runtime.stop s2 = (s2, [])) :=
  start_twice_one_timer_one_tick _ (Project.mk 1 [] (some 0)) 0 rfl rfl rfl

/-- C8 counterexample: with the key already in the keys-held set (as
happens for platform key-repeat), a key-down followed by the matching
key-up does not restore the set to its state before the press: the key
is lost. -/
theorem key_roundtrip_counterexample :
    (Runtime.keyup (fun k => some k)
      (Runtime.keydown (fun k => some k)
        { initialRuntime with keysDown := ["a"] } "a").1 "a").1 ≠
    { initialRuntime with keysDown := ["a"] } := by
  decide

/-- C8 (amended): for a recognized key that is not already held,
key-down then key-up restores the keys-held set exactly, the key-down
suppresses the default and starts hats, and the key-up is silent; an
unrecognized key (translated to null) leaves all state unchanged with no
default-suppression and no script-start request. -/
theorem key_roundtrip_amended (translate : String → Option String)
    (s : RuntimeState) (k key : String) :
    (translate k = some key → key ∉ s.keysDown →
      (Runtime.keyup translate (Runtime.keydown translate s k).1 k).1 = s ∧
      (Runtime.keydown translate s k).2 =
        [REvent.preventDefault, REvent.startHats key] ∧
      (Runtime.keyup translate (Runtime.keydown translate s k).1 k).2 = []) ∧
    (translate k = none →
      Runtime.keydown translate s k = (s, []) ∧
      Runtime.keyup translate s k = (s, [])) := by
  constructor
  · intro ht hmem
    refine ⟨?_, ?_, ?_⟩
    · simp [Runtime.keydown, Runtime.keyup, ht, hmem]
    · simp [Runtime.keydown, ht]
    · simp [Runtime.keydown, Runtime.keyup, ht]
  · intro ht
    exact ⟨by simp [Runtime.keydown, ht], by simp [Runtime.keyup, ht]⟩

/-- Witness for C8: a fresh runtime, identity translation, key "a". -/
theorem key_roundtrip_witness :
    (Runtime.keyup (fun k => some k)
      (Runtime.keydown (fun k => some k) initialRuntime "a").1 "a").1 =
      initialRuntime ∧
    Runtime.keydown (fun _ => none) initialRuntime "F1" =
      (initialRuntime, []) :=
  ⟨((key_roundtrip_amended (fun k => some k) initialRuntime "a" "a").1 rfl
      (by simp [initialRuntime])).1,
   ((key_roundtrip_amended (fun _ => none) initialRuntime "F1" "").2 rfl).1⟩

/-- The scenario monitor for C4 while visible. -/
def mVis : Monitor := Monitor.mk 7 true none (some (0, 0)) none

/-- The scenario monitor for C4 while invisible. -/
def mInvis : Monitor := Monitor.mk 7 false none (some (0, 0)) none

/-- The C4 scenario start state: project bound, surface attached, no
views yet. -/
def cycStart : RuntimeState :=
  { initialRuntime with
      project := some (Project.mk 1 [mVis] (some 0)), stage := true }

/-- First update notification of the C4 scenario (monitor visible). -/
def cyc1 : RuntimeState × List REvent := Runtime.handleMonitorUpdated cycStart mVis

/-- Second update notification of the C4 scenario (monitor now
invisible). -/
def cyc2 : RuntimeState × List REvent := Runtime.handleMonitorUpdated cyc1.1 mInvis

/-- Third update notification of the C4 scenario (monitor visible
again). -/
def cyc3 : RuntimeState × List REvent := Runtime.handleMonitorUpdated cyc2.1 mVis

/-- Recognizer for view-creation events. -/
def isCreateView : REvent → Bool
  | REvent.createView _ _ => true
  | _ => false

/-- Recognizer for view-removal events. -/
def isRemoveView : REvent → Bool
  | REvent.removeView _ => true
  | _ => false

/-- Recognizer for view listener-scope abort events. -/
def isAbortViewScope : REvent → Bool
  | REvent.abortViewScope _ => true
  | _ => false

/-- C4: a monitor going visible, invisible, visible (one update
notification after each transition) yields exactly one view creation,
then exactly one removal with its listener scope aborted and its map
entry dropped (no dangling slider listener), then exactly one fresh
creation; after each step a visible monitor has exactly one view and an
invisible one has none. -/
theorem monitor_visibility_cycle :
    (cyc1.2.countP isCreateView = 1 ∧ cyc1.2.countP isRemoveView = 0 ∧
      cyc1.1.monitorViews = [(7, 0)] ∧ cyc1.1.sliderListeners = [0]) ∧
    (cyc2.2.countP isRemoveView = 1 ∧ cyc2.2.countP isAbortViewScope = 1 ∧
      cyc2.2.countP isCreateView = 0 ∧
      cyc2.1.monitorViews = [] ∧ cyc2.1.sliderListeners = []) ∧
    (cyc3.2.countP isCreateView = 1 ∧ cyc3.2.countP isRemoveView = 0 ∧
      cyc3.1.monitorViews = [(7, 1)] ∧ cyc3.1.sliderListeners = [1]) := by
  decide

/-- `removeMonitorView` changes only the view map and the slider
listeners. -/
theorem removeMonitorView_preserves (s : RuntimeState) (mid : Nat) :
    ∃ mv sl, (Runtime.removeMonitorView s mid).1 =
      { s with monitorViews := mv, sliderListeners := sl } := by
  unfold Runtime.removeMonitorView
  cases h : Runtime.mvFind s.monitorViews mid with
  | none => exact ⟨s.monitorViews, s.sliderListeners, rfl⟩
  | some vid => exact ⟨_, _, rfl⟩

/-- `removeViews` changes only the view map and the slider listeners. -/
theorem removeViews_preserves (ms : List Monitor) : ∀ s : RuntimeState,
    ∃ mv sl, (Runtime.removeViews s ms).1 =
      { s with monitorViews := mv, sliderListeners := sl } := by
  induction ms with
  | nil =>
    intro s
    exact ⟨s.monitorViews, s.sliderListeners, rfl⟩
  | cons m ms ih =>
    intro s
    obtain ⟨mv1, sl1, h1⟩ := removeMonitorView_preserves s m.id
    obtain ⟨mv2, sl2, h2⟩ := ih (Runtime.removeMonitorView s m.id).1
    refine ⟨mv2, sl2, ?_⟩
    show (Runtime.removeViews (Runtime.removeMonitorView s m.id).1 ms).1 = _
    rw [h2, h1]

/-- The first component of `stop` just clears the running flag. -/
theorem stop_fst (s : RuntimeState) :
    (Runtime.stop s).1 = { s with running := false } := by
  by_cases h : s.running
  · simp [Runtime.stop, h]
  · simp only [Bool.not_eq_true] at h
    simp [Runtime.stop, h]
    cases s
    simp_all

/-- The teardown closure changes only the project binding, the running
flag, the view map, the slider listeners and the two listener tables. -/
theorem runTeardown_preserves (s : RuntimeState) (td : Teardown) :
    ∃ mv sl ul cs, (Runtime.runTeardown s td).1 =
      { s with project := none, running := false, monitorViews := mv,
               sliderListeners := sl, updateListeners := ul,
               createMonitorSubs := cs } := by
  obtain ⟨mv, sl, h⟩ :=
    removeViews_preserves td.proj.monitors (Runtime.stop { s with project := none }).1
  rw [stop_fst] at h
  refine ⟨mv, sl, s.updateListeners.filter (fun e => !(e.2 == td.controllerId)),
    s.createMonitorSubs.filter (fun e => !(e.2 == td.controllerId)), ?_⟩
  show (Runtime.abortEventScope
    (Runtime.removeViews (Runtime.stop { s with project := none }).1
      td.proj.monitors).1 td.controllerId) = _
  rw [stop_fst, h]
  rfl

/-- The teardown phase preserves the attached-stage flag. -/
theorem teardownPhase_stage (s : RuntimeState) :
    (Runtime.teardownPhase s).1.stage = s.stage := by
  unfold Runtime.teardownPhase
  cases hpt : s.pendingTeardown with
  | none => rfl
  | some td =>
    obtain ⟨mv, sl, ul, cs, h⟩ := runTeardown_preserves s td
    simp [h]

/-- The teardown phase preserves the controller-id counter. -/
theorem teardownPhase_ncid (s : RuntimeState) :
    (Runtime.teardownPhase s).1.nextControllerId = s.nextControllerId := by
  unfold Runtime.teardownPhase
  cases hpt : s.pendingTeardown with
  | none => rfl
  | some td =>
    obtain ⟨mv, sl, ul, cs, h⟩ := runTeardown_preserves s td
    simp [h]

/-- With a stage attached, replaying created handling registers exactly
one update listener per monitor and changes nothing else. -/
theorem replayCreated_fst (cid : Nat) (ms : List Monitor) : ∀ s : RuntimeState,
    s.stage = true →
    (Runtime.replayCreated cid s ms).1 =
      { s with updateListeners :=
          (ms.map (fun m => (m.id, cid))).reverse ++ s.updateListeners } := by
  induction ms with
  | nil =>
    intro s _
    show s = _
    simp
  | cons m ms ih =>
    intro s h
    show (Runtime.replayCreated cid (Runtime.handleMonitorCreated s cid m.id).1 ms).1 = _
    have hmc : (Runtime.handleMonitorCreated s cid m.id).1 =
        { s with updateListeners := (m.id, cid) :: s.updateListeners } := by
      simp [Runtime.handleMonitorCreated, h]
    rw [hmc,
      ih { s with updateListeners := (m.id, cid) :: s.updateListeners } h]
    simp

/-- The structural form of a `setProject` call binding a non-null
project, with the stage attached: the state after the teardown phase,
with the project bound, the controller counter bumped, the subscription
recorded, the update listeners replayed and the new teardown pending. -/
theorem setProject_some_fst (s : RuntimeState) (proj : Project)
    (hstage : s.stage = true) :
    (Runtime.setProject s (some proj)).1 =
      { (Runtime.teardownPhase s).1 with
          project := some proj,
          nextControllerId := s.nextControllerId + 1,
          createMonitorSubs := (proj.id, s.nextControllerId) ::
            (Runtime.teardownPhase s).1.createMonitorSubs,
          updateListeners :=
            (proj.monitors.map (fun m => (m.id, s.nextControllerId))).reverse
              ++ (Runtime.teardownPhase s).1.updateListeners,
          pendingTeardown := some (Teardown.mk proj s.nextControllerId) } := by
  have hstage2 : ({ (Runtime.teardownPhase s).1 with
      project := some proj,
      nextControllerId := (Runtime.teardownPhase s).1.nextControllerId + 1,
      createMonitorSubs :=
        (proj.id, (Runtime.teardownPhase s).1.nextControllerId) ::
          (Runtime.teardownPhase s).1.createMonitorSubs } : RuntimeState).stage
      = true := by
    show (Runtime.teardownPhase s).1.stage = true
    rw [teardownPhase_stage]
    exact hstage
  have key : (Runtime.setProject s (some proj)).1 =
      { (Runtime.replayCreated (Runtime.teardownPhase s).1.nextControllerId
          { (Runtime.teardownPhase s).1 with
              project := some proj,
              nextControllerId := (Runtime.teardownPhase s).1.nextControllerId + 1,
              createMonitorSubs :=
                (proj.id, (Runtime.teardownPhase s).1.nextControllerId) ::
                  (Runtime.teardownPhase s).1.createMonitorSubs }
          proj.monitors).1 with
        pendingTeardown :=
          some (Teardown.mk proj (Runtime.teardownPhase s).1.nextControllerId) } :=
    rfl
  rw [key, replayCreated_fst _ _ _ hstage2, teardownPhase_ncid]

/-- C9: binding a non-null project with the surface attached records the
monitor-creation subscription under a fresh controller and replays
created handling for every monitor already in the project's collection,
so each pre-existing monitor ends up with an update listener registered
against that controller — exactly the registration that handling a
post-bind creation notification produces. -/
theorem setProject_replays_existing_monitors (s : RuntimeState) (proj : Project)
    (hstage : s.stage = true) :
    ((proj.id, s.nextControllerId) ∈
      (Runtime.setProject s (some proj)).1.createMonitorSubs) ∧
    (∀ m ∈ proj.monitors,
      (m.id, s.nextControllerId) ∈
        (Runtime.setProject s (some proj)).1.updateListeners) ∧
    (∀ mid : Nat,
      Runtime.handleMonitorCreated (Runtime.setProject s (some proj)).1
          s.nextControllerId mid =
        ({ (Runtime.setProject s (some proj)).1 with
            updateListeners := (mid, s.nextControllerId) ::
              (Runtime.setProject s (some proj)).1.updateListeners },
         [REvent.addUpdateListener mid s.nextControllerId])) := by
  rw [setProject_some_fst s proj hstage]
  refine ⟨List.mem_cons_self _ _, ?_, ?_⟩
  · intro m hm
    refine List.mem_append.mpr (Or.inl ?_)
    rw [List.mem_reverse]
    exact List.mem_map.mpr ⟨m, hm, rfl⟩
  · intro mid
    simp [Runtime.handleMonitorCreated, teardownPhase_stage, hstage]

/-- Witness for C9: fresh runtime with a surface attached, one monitor
already in the project. -/
theorem setProject_replays_witness :
    (((Project.mk 1 [Monitor.mk 7 true none none none] (some 0)).id,
        ({ initialRuntime with stage := true } : RuntimeState).nextControllerId) ∈
      (Runtime.setProject { initialRuntime with stage := true }
        (some (Project.mk 1 [Monitor.mk 7 true none none none]
          (some 0)))).1.createMonitorSubs) ∧
    (∀ m ∈ (Project.mk 1 [Monitor.mk 7 true none none none] (some 0)).monitors,
      (m.id, ({ initialRuntime with stage := true } : RuntimeState).nextControllerId) ∈
        (Runtime.setProject { initialRuntime with stage := true }
          (some (Project.mk 1 [Monitor.mk 7 true none none none]
            (some 0)))).1.updateListeners) ∧
    (∀ mid : Nat,
      Runtime.handleMonitorCreated
          (Runtime.setProject { initialRuntime with stage := true }
            (some (Project.mk 1 [Monitor.mk 7 true none none none] (some 0)))).1
          ({ initialRuntime with stage := true } : RuntimeState).nextControllerId
          mid =
        ({ (Runtime.setProject { initialRuntime with stage := true }
              (some (Project.mk 1 [Monitor.mk 7 true none none none]
                (some 0)))).1 with
            updateListeners :=
              (mid, ({ initialRuntime with stage := true } :
                RuntimeState).nextControllerId) ::
                (Runtime.setProject { initialRuntime with stage := true }
                  (some (Project.mk 1 [Monitor.mk 7 true none none none]
                    (some 0)))).1.updateListeners },
         [REvent.addUpdateListener mid
           ({ initialRuntime with stage := true } :
             RuntimeState).nextControllerId])) :=
  setProject_replays_existing_monitors { initialRuntime with stage := true }
    (Project.mk 1 [Monitor.mk 7 true none none none] (some 0)) rfl

/-- A lookup that misses leaves `fireInput` a no-op. -/
theorem fireInput_none (st : CombState) (i : Nat)
    (hg : st.inputs.get? i = none) : fireInput st i = st := by
  unfold fireInput
  rw [hg]

/-- Firing a null or already-aborted input is a no-op. -/
theorem fireInput_skip (st : CombState) (i : Nat) (inp : SigInput)
    (hg : st.inputs.get? i = some inp)
    (hsk : (inp.isNull || inp.aborted) = true) : fireInput st i = st := by
  unfold fireInput
  rw [hg]
  show (if (inp.isNull || inp.aborted) = true then st else _) = st
  rw [if_pos hsk]

/-- Firing a pending non-null input marks it aborted and runs `onAbort`
exactly when the combinator's listener is attached there. -/
theorem fireInput_live (st : CombState) (i : Nat) (inp : SigInput)
    (hg : st.inputs.get? i = some inp)
    (hn : inp.isNull = false) (ha : inp.aborted = false) :
    fireInput st i =
      (if inp.listener = true then
        onAbort { st with inputs := st.inputs.set i { inp with aborted := true } }
      else { st with inputs := st.inputs.set i { inp with aborted := true } }) := by
  unfold fireInput
  rw [hg]
  show (if (inp.isNull || inp.aborted) = true then st else _) = _
  rw [if_neg (by simp [hn, ha])]

/-- The combinator invariant: listener attachment tracks exactly
"controller not yet fired and input non-null"; while the controller has
not fired no input has fired either; the derived signal has fired
exactly once if the controller is aborted and never otherwise. -/
def CombInv (st : CombState) : Prop :=
  (∀ inp ∈ st.inputs, inp.listener = (!st.ctrlAborted && !inp.isNull)) ∧
  (st.ctrlAborted = false → ∀ inp ∈ st.inputs, inp.aborted = false) ∧
  st.fireCount = (if st.ctrlAborted then 1 else 0)

/-- The registration loop establishes the invariant, given that every
already-processed input has its listener attached iff it is non-null and
is not yet aborted. -/
theorem anyAbortLoop_inv (sigs : List (Option Bool)) : ∀ acc : List SigInput,
    (∀ inp ∈ acc, inp.listener = !inp.isNull ∧ inp.aborted = false) →
    CombInv (anyAbortLoop acc sigs) := by
  induction sigs with
  | nil =>
    intro acc hacc
    refine ⟨?_, ?_, rfl⟩
    · intro inp hmem
      have hmem2 : inp ∈ acc.reverse := hmem
      have h := (hacc inp (List.mem_reverse.mp hmem2)).1
      show inp.listener = (!false && !inp.isNull)
      simp [h]
    · intro _ inp hmem
      have hmem2 : inp ∈ acc.reverse := hmem
      exact (hacc inp (List.mem_reverse.mp hmem2)).2
  | cons sig rest ih =>
    intro acc hacc
    show CombInv (if !(initInput sig).isNull && (initInput sig).aborted then _ else _)
    by_cases hc : (!(initInput sig).isNull && (initInput sig).aborted) = true
    · rw [if_pos hc]
      refine ⟨?_, ?_, rfl⟩
      · intro inp hmem
        simp only [onAbort, List.mem_map] at hmem ⊢
        obtain ⟨inp0, _, hinp⟩ := hmem
        simp [← hinp]
      · intro hfalse
        simp [onAbort] at hfalse
    · rw [if_neg hc]
      refine ih _ ?_
      intro inp hmem
      rcases List.mem_cons.mp hmem with hmem | hmem
      · subst hmem
        refine ⟨rfl, ?_⟩
        simp only [Bool.and_eq_true, Bool.not_eq_true'] at hc
        by_cases hn : (initInput sig).isNull = true
        · cases sig with
          | none => rfl
          | some b => simp [initInput] at hn
        · simp only [not_and] at hc
          have h2 := hc (by simpa using hn)
          simpa using h2
      · exact hacc inp hmem

/-- The combinator's result satisfies the invariant. -/
theorem anyAbortSignal_inv (sigs : List (Option Bool)) :
    CombInv (anyAbortSignal sigs) :=
  anyAbortLoop_inv sigs [] (by intro inp h; cases h)

/-- Firing one input preserves the invariant. -/
theorem fireInput_inv (st : CombState) (i : Nat) (hinv : CombInv st) :
    CombInv (fireInput st i) := by
  obtain ⟨hl, hna, hc⟩ := hinv
  rcases hg : st.inputs.get? i with _ | inp
  · rw [fireInput_none st i hg]
    exact ⟨hl, hna, hc⟩
  · by_cases hsk : (inp.isNull || inp.aborted) = true
    · rw [fireInput_skip st i inp hg hsk]
      exact ⟨hl, hna, hc⟩
    · simp only [Bool.or_eq_true, not_or, Bool.not_eq_true] at hsk
      rw [fireInput_live st i inp hg hsk.1 hsk.2]
      have hmem : inp ∈ st.inputs := List.get?_mem hg
      have hli := hl inp hmem
      by_cases hlis : inp.listener = true
      · rw [if_pos hlis]
        have hcf : st.ctrlAborted = false := by
          rw [hli] at hlis
          cases hca : st.ctrlAborted
          · rfl
          · rw [hca] at hlis
            simp at hlis
        refine ⟨?_, ?_, ?_⟩
        · intro inp2 hmem2
          simp only [onAbort, List.mem_map] at hmem2 ⊢
          obtain ⟨inp0, _, hinp⟩ := hmem2
          simp [← hinp]
        · intro hfalse
          simp [onAbort] at hfalse
        · simp [onAbort, hcf, hc]
      · rw [if_neg hlis]
        have hca : st.ctrlAborted = true := by
          rw [hli] at hlis
          cases hcab : st.ctrlAborted
          · rw [hcab] at hlis
            simp [hsk.1] at hlis
          · rfl
        refine ⟨?_, ?_, ?_⟩
        · intro inp2 hmem2
          have hmem3 : inp2 ∈ st.inputs.set i { inp with aborted := true } := hmem2
          rcases List.mem_or_eq_of_mem_set hmem3 with h4 | h4
          · have h5 := hl inp2 h4
            show inp2.listener = (!st.ctrlAborted && !inp2.isNull)
            exact h5
          · subst h4
            show SigInput.listener _ = (!st.ctrlAborted && _)
            simpa [hca] using hli
        · intro hfalse
          have h6 : st.ctrlAborted = false := hfalse
          rw [hca] at h6
          cases h6
        · exact hc

/-- Firing any sequence of inputs preserves the invariant. -/
theorem runFires_inv (l : List Nat) : ∀ st : CombState,
    CombInv st → CombInv (runFires st l) := by
  induction l with
  | nil => intro st h; exact h
  | cons i l ih => intro st h; exact ih _ (fireInput_inv st i h)

/-- The registration loop aborts the derived controller exactly when
some input is already aborted. -/
theorem anyAbortLoop_ctrl (sigs : List (Option Bool)) : ∀ acc : List SigInput,
    (anyAbortLoop acc sigs).ctrlAborted = sigs.any (fun s => s.getD false) := by
  induction sigs with
  | nil => intro acc; rfl
  | cons sig rest ih =>
    intro acc
    cases sig with
    | none =>
      show (anyAbortLoop _ rest).ctrlAborted = _
      rw [ih]
      simp
    | some b =>
      cases b with
      | false =>
        show (anyAbortLoop _ rest).ctrlAborted = _
        rw [ih]
        simp
      | true =>
        show (onAbort _).ctrlAborted = _
        simp [onAbort]

/-- In an invariant state, firing a pending non-null input always leaves
the derived controller aborted. -/
theorem fireInput_pending_aborts (st : CombState) (hinv : CombInv st)
    (i : Nat) (inp : SigInput) (hg : st.inputs.get? i = some inp)
    (hn : inp.isNull = false) (ha : inp.aborted = false) :
    (fireInput st i).ctrlAborted = true := by
  obtain ⟨hl, _, _⟩ := hinv
  rw [fireInput_live st i inp hg hn ha]
  have hli := hl inp (List.get?_mem hg)
  by_cases hlis : inp.listener = true
  · rw [if_pos hlis]
    rfl
  · rw [if_neg hlis]
    show st.ctrlAborted = true
    rw [hli] at hlis
    cases hca : st.ctrlAborted
    · rw [hca] at hlis
      simp [hn] at hlis
    · rfl

/-- C5: the combined signal is already fired on return exactly when some
input was already fired; across any later firing sequence the derived
signal has fired exactly once if aborted and never otherwise (never
twice); once aborted, the combinator's listener is detached from every
input; and firing any still-pending non-null input immediately leaves
the derived signal fired. -/
theorem anyAbortSignal_spec (sigs : List (Option Bool)) :
    ((anyAbortSignal sigs).ctrlAborted = sigs.any (fun s => s.getD false)) ∧
    (∀ l : List Nat,
      (runFires (anyAbortSignal sigs) l).fireCount =
        (if (runFires (anyAbortSignal sigs) l).ctrlAborted then 1 else 0)) ∧
    (∀ l : List Nat, ∀ inp ∈ (runFires (anyAbortSignal sigs) l).inputs,
      inp.listener =
        (!(runFires (anyAbortSignal sigs) l).ctrlAborted && !inp.isNull)) ∧
    (∀ (l : List Nat) (i : Nat) (inp : SigInput),
      (runFires (anyAbortSignal sigs) l).inputs.get? i = some inp →
      inp.isNull = false → inp.aborted = false →
      (fireInput (runFires (anyAbortSignal sigs) l) i).ctrlAborted = true) := by
  refine ⟨anyAbortLoop_ctrl sigs [], ?_, ?_, ?_⟩
  · intro l
    exact (runFires_inv l _ (anyAbortSignal_inv sigs)).2.2
  · intro l
    exact (runFires_inv l _ (anyAbortSignal_inv sigs)).1
  · intro l i inp hg hn ha
    exact fireInput_pending_aborts _ (runFires_inv l _ (anyAbortSignal_inv sigs))
      i inp hg hn ha

/-- Witness for C5: two live inputs and a null slot; before any firing
nothing has fired, and firing input 0 fires the derived signal once. -/
theorem anyAbortSignal_spec_witness :
    ((anyAbortSignal [some false, none, some false]).ctrlAborted =
      ([some false, none, some false].any (fun s => s.getD false))) ∧
    ((runFires (anyAbortSignal [some false, none, some false])
        ([] : List Nat)).fireCount =
      (if (runFires (anyAbortSignal [some false, none, some false])
          ([] : List Nat)).ctrlAborted then 1 else 0)) ∧
    ((fireInput (runFires (anyAbortSignal [some false, none, some false])
        ([] : List Nat)) 0).ctrlAborted = true) :=
  ⟨(anyAbortSignal_spec [some false, none, some false]).1,
   (anyAbortSignal_spec [some false, none, some false]).2.1 [],
   (anyAbortSignal_spec [some false, none, some false]).2.2.2 [] 0
     (SigInput.mk false false true) rfl rfl rfl⟩

/-- The view map after `removeMonitorView` is the old map without the
monitor's entry. -/
theorem removeMonitorView_views (s : RuntimeState) (mid : Nat) :
    (Runtime.removeMonitorView s mid).1.monitorViews =
      s.monitorViews.filter (fun e => !(e.1 == mid)) := by
  unfold Runtime.removeMonitorView
  cases hf : Runtime.mvFind s.monitorViews mid with
  | some vid => rfl
  | none =>
    show s.monitorViews = _
    unfold Runtime.mvFind at hf
    rw [Option.map_eq_none'] at hf
    rw [List.find?_eq_none] at hf
    refine (List.filter_eq_self.mpr ?_).symm
    intro e hmem
    simpa using hf e hmem

/-- The view map after the teardown's removal loop is the old map
without every entry whose key is a monitor of the list. -/
theorem removeViews_views (ms : List Monitor) : ∀ s : RuntimeState,
    (Runtime.removeViews s ms).1.monitorViews =
      s.monitorViews.filter (fun e => !((ms.map Monitor.id).contains e.1)) := by
  induction ms with
  | nil =>
    intro s
    show s.monitorViews = _
    refine (List.filter_eq_self.mpr ?_).symm
    intro e _
    rfl
  | cons m ms ih =>
    intro s
    show (Runtime.removeViews (Runtime.removeMonitorView s m.id).1 ms).1.monitorViews = _
    rw [ih, removeMonitorView_views, List.filter_filter]
    refine List.filter_congr ?_
    intro e _
    simp only [List.map_cons, List.contains_cons, Bool.not_or]
    rw [Bool.and_comm]

/-- On a map with no duplicate keys, lookup of a present binding finds
exactly that binding. -/
theorem mvFind_nodup : ∀ (l : List (Nat × Nat)) (k v : Nat),
    (l.map Prod.fst).Nodup → (k, v) ∈ l → Runtime.mvFind l k = some v := by
  intro l
  induction l with
  | nil =>
    intro k v _ hmem
    cases hmem
  | cons e rest ih =>
    intro k v hnd hmem
    rw [List.map_cons, List.nodup_cons] at hnd
    rcases List.mem_cons.mp hmem with hmem | hmem
    · subst hmem
      unfold Runtime.mvFind
      rw [List.find?_cons_of_pos _ (by simp)]
      rfl
    · by_cases hk : e.1 == k
      · exfalso
        refine hnd.1 ?_
        rw [show e.1 = k from by simpa using hk]
        exact List.mem_map.mpr ⟨(k, v), hmem, rfl⟩
      · unfold Runtime.mvFind
        rw [List.find?_cons_of_neg _ (by simpa using hk)]
        exact ih k v hnd.2 hmem

/-- The removal loop emits the removal and scope-abort events of every
tracked view whose monitor is in the list (keys assumed unique, as they
are for a JS `Map`). -/
theorem removeViews_events (ms : List Monitor) : ∀ s : RuntimeState,
    (s.monitorViews.map Prod.fst).Nodup →
    ∀ kv ∈ s.monitorViews, kv.1 ∈ ms.map Monitor.id →
    REvent.removeView kv.2 ∈ (Runtime.removeViews s ms).2 ∧
    REvent.abortViewScope kv.2 ∈ (Runtime.removeViews s ms).2 := by
  induction ms with
  | nil =>
    intro s _ kv _ hin
    cases hin
  | cons m ms ih =>
    intro s hnd kv hmem hin
    have hsplit : (Runtime.removeViews s (m :: ms)).2 =
        (Runtime.removeMonitorView s m.id).2 ++
        (Runtime.removeViews (Runtime.removeMonitorView s m.id).1 ms).2 := rfl
    by_cases hk : kv.1 = m.id
    · have hfind : Runtime.mvFind s.monitorViews m.id = some kv.2 := by
        rw [← hk]
        exact mvFind_nodup s.monitorViews kv.1 kv.2 hnd (by simpa using hmem)
      have hev : (Runtime.removeMonitorView s m.id).2 =
          [REvent.removeView kv.2, REvent.abortViewScope kv.2] := by
        unfold Runtime.removeMonitorView
        rw [hfind]
      rw [hsplit, hev]
      constructor
      · exact List.mem_append.mpr (Or.inl (by simp))
      · exact List.mem_append.mpr (Or.inl (by simp))
    · have hin2 : kv.1 ∈ ms.map Monitor.id := by
        rw [List.map_cons] at hin
        rcases List.mem_cons.mp hin with h | h
        · exact absurd h hk
        · exact h
      have hmem2 : kv ∈ (Runtime.removeMonitorView s m.id).1.monitorViews := by
        rw [removeMonitorView_views]
        refine List.mem_filter.mpr ⟨hmem, by simpa using hk⟩
      have hnd2 : ((Runtime.removeMonitorView s m.id).1.monitorViews.map
          Prod.fst).Nodup := by
        rw [removeMonitorView_views]
        exact List.Nodup.sublist
          (List.Sublist.map Prod.fst (List.filter_sublist s.monitorViews)) hnd
      have hrec := ih (Runtime.removeMonitorView s m.id).1 hnd2 kv hmem2 hin2
      rw [hsplit]
      exact ⟨List.mem_append.mpr (Or.inr hrec.1),
             List.mem_append.mpr (Or.inr hrec.2)⟩

/-- Replaying created handling changes only the update-listener table. -/
theorem replayCreated_preserves (cid : Nat) (ms : List Monitor) :
    ∀ s : RuntimeState, ∃ ul,
      (Runtime.replayCreated cid s ms).1 = { s with updateListeners := ul } := by
  induction ms with
  | nil =>
    intro s
    exact ⟨s.updateListeners, rfl⟩
  | cons m ms ih =>
    intro s
    have h0 : (Runtime.handleMonitorCreated s cid m.id).1 =
        { s with updateListeners :=
            if s.stage then (m.id, cid) :: s.updateListeners
            else s.updateListeners } := by
      unfold Runtime.handleMonitorCreated
      by_cases h : s.stage
      · rw [if_neg (by simp [h]), if_pos h]
      · rw [if_pos (by simp [h]), if_neg h]
    obtain ⟨ul1, h1⟩ := ih (Runtime.handleMonitorCreated s cid m.id).1
    refine ⟨ul1, ?_⟩
    show (Runtime.replayCreated cid (Runtime.handleMonitorCreated s cid m.id).1 ms).1 = _
    rw [h1, h0]

/-- Every event of the replay loop is an update-listener registration
against the given controller. -/
theorem replayCreated_events (cid : Nat) (ms : List Monitor) :
    ∀ s : RuntimeState, ∀ e ∈ (Runtime.replayCreated cid s ms).2,
      ∃ mid, e = REvent.addUpdateListener mid cid := by
  induction ms with
  | nil =>
    intro s e he
    cases he
  | cons m ms ih =>
    intro s e he
    have hsplit : (Runtime.replayCreated cid s (m :: ms)).2 =
        (Runtime.handleMonitorCreated s cid m.id).2 ++
        (Runtime.replayCreated cid (Runtime.handleMonitorCreated s cid m.id).1 ms).2 :=
      rfl
    rw [hsplit] at he
    rcases List.mem_append.mp he with he | he
    · unfold Runtime.handleMonitorCreated at he
      by_cases h : s.stage
      · simp [h] at he
        exact ⟨m.id, he⟩
      · simp [h] at he
    · exact ih _ e he

/-- Events that belong to binding a new project rather than to tearing
the previous one down. -/
def isBindEvent : REvent → Bool
  | REvent.interpSetProject (some _) => true
  | REvent.subscribeCreateMonitor _ _ => true
  | REvent.addUpdateListener _ _ => true
  | REvent.registerProject _ => true
  | _ => false

/-- No teardown event is a bind event. -/
theorem runTeardown_events_not_bind (s : RuntimeState) (td : Teardown) :
    ∀ e ∈ (Runtime.runTeardown s td).2, isBindEvent e = false := by
  have hrv : ∀ (ms : List Monitor) (s0 : RuntimeState),
      ∀ e ∈ (Runtime.removeViews s0 ms).2, isBindEvent e = false := by
    intro ms
    induction ms with
    | nil =>
      intro s0 e he
      cases he
    | cons m ms ih =>
      intro s0 e he
      have hsplit : (Runtime.removeViews s0 (m :: ms)).2 =
          (Runtime.removeMonitorView s0 m.id).2 ++
          (Runtime.removeViews (Runtime.removeMonitorView s0 m.id).1 ms).2 := rfl
      rw [hsplit] at he
      rcases List.mem_append.mp he with he | he
      · unfold Runtime.removeMonitorView at he
        cases hf : Runtime.mvFind s0.monitorViews m.id with
        | some vid =>
          rw [hf] at he
          rcases List.mem_cons.mp he with he | he
          · rw [he]; rfl
          · rcases List.mem_cons.mp he with he | he
            · rw [he]; rfl
            · cases he
        | none =>
          rw [hf] at he
          cases he
      · exact ih _ e he
  intro e he
  have hsplit : (Runtime.runTeardown s td).2 =
      (Runtime.stop { s with project := none }).2 ++
      (Runtime.removeViews (Runtime.stop { s with project := none }).1
        td.proj.monitors).2 ++
      (if (Runtime.removeViews (Runtime.stop { s with project := none }).1
            td.proj.monitors).1.renderer then [REvent.penClear] else []) ++
      [REvent.unregisterProject td.proj.id, REvent.abortScope td.controllerId,
       REvent.interpSetProject none] := rfl
  rw [hsplit] at he
  rcases List.mem_append.mp he with he | he
  · rcases List.mem_append.mp he with he | he
    · rcases List.mem_append.mp he with he | he
      · unfold Runtime.stop at he
        by_cases h : s.running
        · simp only [show ({ s with project := none } : RuntimeState).running
              = s.running from rfl, h, if_pos] at he
          rcases List.mem_cons.mp he with he | he
          · rw [he]; rfl
          · cases he
        · simp only [show ({ s with project := none } : RuntimeState).running
              = s.running from rfl, h, if_neg] at he
          cases he
      · exact hrv td.proj.monitors _ e he
    · by_cases h : (Runtime.removeViews (Runtime.stop
          { s with project := none }).1 td.proj.monitors).1.renderer
      · rw [if_pos h] at he
        rcases List.mem_cons.mp he with he | he
        · rw [he]; rfl
        · cases he
      · rw [if_neg h] at he
        cases he
  · rcases List.mem_cons.mp he with he | he
    · rw [he]; rfl
    · rcases List.mem_cons.mp he with he | he
      · rw [he]; rfl
      · rcases List.mem_cons.mp he with he | he
        · rw [he]; rfl
        · cases he

/-- C1: with a teardown pending (and the tracked views belonging to the
previous project, keys unique, as the runtime maintains), any
`setProject` call emits the complete teardown — stopping the loop,
removing and scope-aborting every tracked view, clearing the pen layer
when a renderer exists, unregistering the project, aborting its event
scope and unsetting the interpreter project — strictly before any
bind-phase event of the new project; afterwards no view of the previous
project remains, the loop is stopped, and exactly the new project's
teardown (or none) is pending; across any call sequence at most one
teardown is ever pending. -/
theorem setProject_full_teardown_first (s : RuntimeState) (td : Teardown)
    (p : Option Project)
    (hpend : s.pendingTeardown = some td)
    (hviews : ∀ kv ∈ s.monitorViews, kv.1 ∈ td.proj.monitors.map Monitor.id)
    (hnodup : (s.monitorViews.map Prod.fst).Nodup) :
    ∃ E2 : List REvent,
      (Runtime.setProject s p).2 = (Runtime.runTeardown s td).2 ++ E2 ∧
      (s.running = true → REvent.timerCleared ∈ (Runtime.runTeardown s td).2) ∧
      (∀ kv ∈ s.monitorViews,
        REvent.removeView kv.2 ∈ (Runtime.runTeardown s td).2 ∧
        REvent.abortViewScope kv.2 ∈ (Runtime.runTeardown s td).2) ∧
      (s.renderer = true → REvent.penClear ∈ (Runtime.runTeardown s td).2) ∧
      REvent.unregisterProject td.proj.id ∈ (Runtime.runTeardown s td).2 ∧
      REvent.abortScope td.controllerId ∈ (Runtime.runTeardown s td).2 ∧
      REvent.interpSetProject none ∈ (Runtime.runTeardown s td).2 ∧
      (∀ e ∈ (Runtime.runTeardown s td).2, isBindEvent e = false) ∧
      (∀ e ∈ E2, isBindEvent e = true) ∧
      (∀ proj : Project, p = some proj →
        REvent.interpSetProject (some proj.id) ∈ E2 ∧
        REvent.registerProject proj.id ∈ E2) ∧
      (p = none → E2 = []) ∧
      (Runtime.runTeardown s td).1.monitorViews = [] ∧
      (Runtime.setProject s p).1.monitorViews = [] ∧
      (Runtime.setProject s p).1.running = false ∧
      (Runtime.setProject s p).1.pendingTeardown =
        p.map (fun proj => Teardown.mk proj s.nextControllerId) ∧
      (∀ (s0 : RuntimeState) (calls : List (Option Project)),
        ((Runtime.applyCalls s0 calls).pendingTeardown).toList.length ≤ 1) := by
  have htp : Runtime.teardownPhase s =
      (({ (Runtime.runTeardown s td).1 with pendingTeardown := none } :
        RuntimeState), (Runtime.runTeardown s td).2) := by
    unfold Runtime.teardownPhase
    rw [hpend]
  have hsmv : (Runtime.stop { s with project := none }).1.monitorViews =
      s.monitorViews := by
    rw [stop_fst]
  have hsplit : (Runtime.runTeardown s td).2 =
      (Runtime.stop { s with project := none }).2 ++
      (Runtime.removeViews (Runtime.stop { s with project := none }).1
        td.proj.monitors).2 ++
      (if (Runtime.removeViews (Runtime.stop { s with project := none }).1
            td.proj.monitors).1.renderer then [REvent.penClear] else []) ++
      [REvent.unregisterProject td.proj.id, REvent.abortScope td.controllerId,
       REvent.interpSetProject none] := rfl
  have htimer : s.running = true →
      REvent.timerCleared ∈ (Runtime.runTeardown s td).2 := by
    intro hr
    rw [hsplit]
    have hstopev : (Runtime.stop { s with project := none }).2 =
        [REvent.timerCleared] := by
      unfold Runtime.stop
      rw [if_pos (show ({ s with project := none } : RuntimeState).running = true
        from hr)]
    refine List.mem_append.mpr (Or.inl (List.mem_append.mpr (Or.inl
      (List.mem_append.mpr (Or.inl ?_)))))
    rw [hstopev]
    simp
  have hrem : ∀ kv ∈ s.monitorViews,
      REvent.removeView kv.2 ∈ (Runtime.runTeardown s td).2 ∧
      REvent.abortViewScope kv.2 ∈ (Runtime.runTeardown s td).2 := by
    intro kv hkv
    have h := removeViews_events td.proj.monitors
      (Runtime.stop { s with project := none }).1
      (by rw [hsmv]; exact hnodup) kv (by rw [hsmv]; exact hkv)
      (hviews kv hkv)
    rw [hsplit]
    exact ⟨List.mem_append.mpr (Or.inl (List.mem_append.mpr (Or.inl
            (List.mem_append.mpr (Or.inr h.1))))),
          List.mem_append.mpr (Or.inl (List.mem_append.mpr (Or.inl
            (List.mem_append.mpr (Or.inr h.2)))))⟩
  have hrenp : (Runtime.removeViews (Runtime.stop { s with project := none }).1
      td.proj.monitors).1.renderer = s.renderer := by
    obtain ⟨mv1, sl1, h⟩ := removeViews_preserves td.proj.monitors
      (Runtime.stop { s with project := none }).1
    rw [h, stop_fst]
  have hpen : s.renderer = true →
      REvent.penClear ∈ (Runtime.runTeardown s td).2 := by
    intro hr
    rw [hsplit]
    refine List.mem_append.mpr (Or.inl (List.mem_append.mpr (Or.inr ?_)))
    rw [hrenp, hr]
    simp
  have hunreg : REvent.unregisterProject td.proj.id ∈
      (Runtime.runTeardown s td).2 := by
    rw [hsplit]
    refine List.mem_append.mpr (Or.inr ?_)
    simp
  have habort : REvent.abortScope td.controllerId ∈
      (Runtime.runTeardown s td).2 := by
    rw [hsplit]
    refine List.mem_append.mpr (Or.inr ?_)
    simp
  have hinterp : REvent.interpSetProject none ∈
      (Runtime.runTeardown s td).2 := by
    rw [hsplit]
    refine List.mem_append.mpr (Or.inr ?_)
    simp
  have hrtmv : (Runtime.runTeardown s td).1.monitorViews = [] := by
    show (Runtime.abortEventScope
      (Runtime.removeViews (Runtime.stop { s with project := none }).1
        td.proj.monitors).1 td.controllerId).monitorViews = []
    show (Runtime.removeViews (Runtime.stop { s with project := none }).1
      td.proj.monitors).1.monitorViews = []
    rw [removeViews_views, hsmv]
    refine List.filter_eq_nil_iff.mpr ?_
    intro kv hkv
    have hin := hviews kv hkv
    have hel : (List.map Monitor.id td.proj.monitors).contains kv.1 = true :=
      List.elem_eq_true_of_mem hin
    show ¬((!((td.proj.monitors.map Monitor.id).contains kv.1)) = true)
    rw [hel]
    simp
  have hcalls : ∀ (s0 : RuntimeState) (calls : List (Option Project)),
      ((Runtime.applyCalls s0 calls).pendingTeardown).toList.length ≤ 1 := by
    intro s0 calls
    cases (Runtime.applyCalls s0 calls).pendingTeardown
    · exact Nat.zero_le 1
    · exact Nat.le_refl 1
  have hntb := runTeardown_events_not_bind s td
  cases p with
  | none =>
    refine ⟨[], ?_, htimer, hrem, hpen, hunreg, habort, hinterp, hntb,
      ?_, ?_, fun _ => rfl, hrtmv, ?_, ?_, ?_, hcalls⟩
    · show (Runtime.teardownPhase s).2 = (Runtime.runTeardown s td).2 ++ []
      rw [htp]
      simp
    · intro e he
      cases he
    · intro proj hcontra
      cases hcontra
    · show ({ (Runtime.teardownPhase s).1 with project := none } :
        RuntimeState).monitorViews = []
      show (Runtime.teardownPhase s).1.monitorViews = []
      rw [htp]
      exact hrtmv
    · show (Runtime.teardownPhase s).1.running = false
      rw [htp]
      show (Runtime.runTeardown s td).1.running = false
      obtain ⟨mv, sl, ul, cs, h⟩ := runTeardown_preserves s td
      rw [h]
    · show ({ (Runtime.teardownPhase s).1 with project := none } :
        RuntimeState).pendingTeardown = none
      show (Runtime.teardownPhase s).1.pendingTeardown = none
      rw [htp]
  | some proj =>
    obtain ⟨ul1, hrp⟩ := replayCreated_preserves
      (Runtime.teardownPhase s).1.nextControllerId
      proj.monitors
      ({ (Runtime.teardownPhase s).1 with
          project := some proj,
          nextControllerId := (Runtime.teardownPhase s).1.nextControllerId + 1,
          createMonitorSubs :=
            (proj.id, (Runtime.teardownPhase s).1.nextControllerId) ::
              (Runtime.teardownPhase s).1.createMonitorSubs } : RuntimeState)
    refine ⟨[REvent.interpSetProject (some proj.id),
        REvent.subscribeCreateMonitor proj.id
          (Runtime.teardownPhase s).1.nextControllerId] ++
        (Runtime.replayCreated (Runtime.teardownPhase s).1.nextControllerId
          ({ (Runtime.teardownPhase s).1 with
              project := some proj,
              nextControllerId :=
                (Runtime.teardownPhase s).1.nextControllerId + 1,
              createMonitorSubs :=
                (proj.id, (Runtime.teardownPhase s).1.nextControllerId) ::
                  (Runtime.teardownPhase s).1.createMonitorSubs } : RuntimeState)
          proj.monitors).2 ++
        [REvent.registerProject proj.id],
      ?_, htimer, hrem, hpen, hunreg, habort, hinterp, hntb,
      ?_, ?_, ?_, hrtmv, ?_, ?_, ?_, hcalls⟩
    · show (Runtime.teardownPhase s).2 ++ _ ++ _ ++ _ =
        (Runtime.runTeardown s td).2 ++ _
      rw [htp]
      simp [List.append_assoc]
    · intro e he
      rcases List.mem_append.mp he with he | he
      · rcases List.mem_append.mp he with he | he
        · rcases List.mem_cons.mp he with he | he
          · rw [he]; rfl
          · rcases List.mem_cons.mp he with he | he
            · rw [he]; rfl
            · cases he
        · obtain ⟨mid, hmid⟩ := replayCreated_events _ proj.monitors _ e he
          rw [hmid]
          rfl
      · rcases List.mem_cons.mp he with he | he
        · rw [he]; rfl
        · cases he
    · intro proj2 hp2
      have hp3 : proj2 = proj := by
        injection hp2 with h
        exact h.symm
      subst hp3
      constructor
      · exact List.mem_append.mpr (Or.inl (List.mem_append.mpr (Or.inl
          (by simp))))
      · exact List.mem_append.mpr (Or.inr (by simp))
    · intro hcontra
      cases hcontra
    · show ({ (Runtime.replayCreated _ _ proj.monitors).1 with
        pendingTeardown := _ } : RuntimeState).monitorViews = []
      show (Runtime.replayCreated (Runtime.teardownPhase s).1.nextControllerId
        ({ (Runtime.teardownPhase s).1 with
            project := some proj,
            nextControllerId := (Runtime.teardownPhase s).1.nextControllerId + 1,
            createMonitorSubs :=
              (proj.id, (Runtime.teardownPhase s).1.nextControllerId) ::
                (Runtime.teardownPhase s).1.createMonitorSubs } : RuntimeState)
        proj.monitors).1.monitorViews = []
      rw [hrp]
      show (Runtime.teardownPhase s).1.monitorViews = []
      rw [htp]
      exact hrtmv
    · show (Runtime.replayCreated (Runtime.teardownPhase s).1.nextControllerId
        ({ (Runtime.teardownPhase s).1 with
            project := some proj,
            nextControllerId := (Runtime.teardownPhase s).1.nextControllerId + 1,
            createMonitorSubs :=
              (proj.id, (Runtime.teardownPhase s).1.nextControllerId) ::
                (Runtime.teardownPhase s).1.createMonitorSubs } : RuntimeState)
        proj.monitors).1.running = false
      rw [hrp]
      show (Runtime.teardownPhase s).1.running = false
      rw [htp]
      show (Runtime.runTeardown s td).1.running = false
      obtain ⟨mv, sl, ul, cs, h⟩ := runTeardown_preserves s td
      rw [h]
    · show some (Teardown.mk proj
        (Runtime.teardownPhase s).1.nextControllerId) = _
      rw [teardownPhase_ncid]
      rfl

/-- The previously bound project of the C1 witness scenario. -/
def c1Prev : Project := Project.mk 1 [Monitor.mk 7 true none none none] (some 0)

/-- The newly bound project of the C1 witness scenario. -/
def c1New : Project := Project.mk 2 [Monitor.mk 9 true none none none] (some 0)

/-- The C1 witness start state: previous project bound and running, a
renderer and surface attached, one tracked monitor view. -/
def c1State : RuntimeState :=
  { initialRuntime with
      project := some c1Prev, stage := true, renderer := true, running := true,
      pendingTeardown := some (Teardown.mk c1Prev 0),
      monitorViews := [(7, 0)], sliderListeners := [0],
      updateListeners := [(7, 0)], createMonitorSubs := [(1, 0)],
      nextViewId := 1, nextControllerId := 1 }

/-- Witness for C1: in the concrete scenario the teardown trace contains
the unregistration and the view removal, and after rebinding no old view
remains, the loop is stopped and only the new project's teardown is
pending. -/
theorem setProject_full_teardown_witness :
    REvent.unregisterProject 1 ∈
      (Runtime.runTeardown c1State (Teardown.mk c1Prev 0)).2 ∧
    REvent.timerCleared ∈
      (Runtime.runTeardown c1State (Teardown.mk c1Prev 0)).2 ∧
    (Runtime.setProject c1State (some c1New)).1.monitorViews = [] ∧
    (Runtime.setProject c1State (some c1New)).1.running = false ∧
    (Runtime.setProject c1State (some c1New)).1.pendingTeardown =
      some (Teardown.mk c1New 1) := by
  obtain ⟨E2, h1, h2, h3, h4, h5, h6, h7, h8, h9, h10, h11, h12, h13, h14,
    h15, h16⟩ :=
    setProject_full_teardown_first c1State (Teardown.mk c1Prev 0) (some c1New)
      rfl (by decide) (by decide)
  exact ⟨h5, h2 rfl, h13, h14, h15⟩
